import Mathlib

/-!
# Verification of the conversational complaint-intake engine

Shallow embedding of the repository's core logic:

* `src/graph_processor.py` — `PassengerInfo`, `merge_passenger_info`,
  `_decide_action`, `_execute_action` of `ComplaintGraphProcessor`;
* `src/trustcall_processor.py` — `TrustCallProcessor.process_message` with its
  fast paths and the `_create_ticket` / `_update_ticket` / `_request_info` /
  `_acknowledge` dispatch;
* `src/database.py` — `DatabaseManager.create_ticket`, `update_ticket`,
  `get_ticket_by_thread` over an in-memory list of rows standing for the
  `tickets` table;
* `api_enhanced.py` — the per-conversation history store update in
  `process_complaint`.

Python `Optional[str]` is modelled as `Option String`; Python truthiness of an
optional string (`None` and `""` are falsy) is `truthyStr`.  The structured
judgment oracle (`llm.with_structured_output(...).invoke(...)`) is an external
dependency: the single oracle call made by `process_message` is modelled by an
`Except Unit ActionResponse` parameter, and the embedding counts how many times
the oracle is consulted (`portCalls`) so that fast-path claims can state that
no call is made.  Exceptions raised and caught inside the Python code are
modelled with `Option`/`Except` values as noted at each definition.
-/

/-- Python truthiness of an `Optional[str]`: `None` and `""` are falsy. -/
def truthyStr : Option String → Bool
  | none => false
  | some s => !(s == "")

/-- Python `f"{x}"` rendering of an `Optional[str]`: `None` prints as `"None"`. -/
def strOfOpt : Option String → String
  | none => "None"
  | some s => s

/-- Python list slice `l[-n:]`: the most recent `n` entries (all of them when
`l` is shorter than `n`). -/
def lastN (n : Nat) (l : List α) : List α := l.drop (l.length - n)

/-- `Priority` enum from `src/models.py`. -/
inductive Priority
  | LOW | MEDIUM | HIGH | CRITICAL
deriving DecidableEq, Repr

/-- `.value` of the `str`-valued `Priority` enum. -/
def Priority.value : Priority → String
  | .LOW => "LOW"
  | .MEDIUM => "MEDIUM"
  | .HIGH => "HIGH"
  | .CRITICAL => "CRITICAL"

/-- `Category` enum from `src/models.py`. -/
inductive Category
  | DELAY | CANCELLATION | BAGGAGE | SERVICE | REFUND | OTHER
deriving DecidableEq, Repr

/-- `.value` of the `str`-valued `Category` enum. -/
def Category.value : Category → String
  | .DELAY => "DELAY"
  | .CANCELLATION => "CANCELLATION"
  | .BAGGAGE => "BAGGAGE"
  | .SERVICE => "SERVICE"
  | .REFUND => "REFUND"
  | .OTHER => "OTHER"

/-- The `team_map` lookup used by both processors
(`graph_processor.py` `_analyze_complaint`, `trustcall_processor.py`
`_create_ticket`): priority determines the assigned team. -/
def team_map : Priority → String
  | .CRITICAL => "Emergency Response"
  | .HIGH => "Priority Support"
  | .MEDIUM => "Customer Service"
  | .LOW => "General Support"

/-- `PassengerInfo` Pydantic model from `src/graph_processor.py`
(five optional string fields). -/
structure PassengerInfo where
  name : Option String
  email : Option String
  phone : Option String
  flight_number : Option String
  booking_reference : Option String
deriving DecidableEq, Repr

/-- The all-fields-`None` `PassengerInfo()`. -/
def nullPassengerInfo : PassengerInfo :=
  { name := none, email := none, phone := none,
    flight_number := none, booking_reference := none }

/-- One field of the merge loop in `merge_passenger_info`:
`if value is not None: merged_dict[key] = value`, i.e. the new value wins
exactly when it is non-`None`. -/
def mergeField (existing new : Option String) : Option String :=
  match new with
  | some v => some v
  | none => existing

/-- `merge_passenger_info` from `src/graph_processor.py`.  A Pydantic model
object is always truthy, so `if not existing` / `if not new` fire exactly on
`None`; otherwise the merge is field-wise `mergeField`. -/
def merge_passenger_info :
    Option PassengerInfo → Option PassengerInfo → Option PassengerInfo
  | none, new => new
  | some existing, none => some existing
  | some existing, some new =>
      some { name := mergeField existing.name new.name,
             email := mergeField existing.email new.email,
             phone := mergeField existing.phone new.phone,
             flight_number := mergeField existing.flight_number new.flight_number,
             booking_reference :=
               mergeField existing.booking_reference new.booking_reference }

theorem mergeField_assoc (x y z : Option String) :
    mergeField (mergeField x y) z = mergeField x (mergeField y z) := by
  cases z <;> cases y <;> rfl

theorem mergeField_self_right (x y : Option String) :
    mergeField (mergeField x y) y = mergeField x y := by
  cases y <;> rfl

theorem mergeField_self (x : Option String) : mergeField x x = x := by
  cases x <;> rfl

theorem merge_passenger_info_self (B : Option PassengerInfo) :
    merge_passenger_info B B = B := by
  cases B with
  | none => rfl
  | some b => cases b; simp [merge_passenger_info, mergeField_self]

/-- C2: the `PassengerInfo` merge is field-wise "new wins exactly when
non-null", associative, has the all-fields-null `PassengerInfo` as an identity
element, and satisfies `merge(merge(A,B),B) = merge(A,B)`. -/
theorem c2_merge_passenger_info_algebra :
    (∀ a b : PassengerInfo,
        merge_passenger_info (some a) (some b) =
          some { name := if b.name.isSome then b.name else a.name,
                 email := if b.email.isSome then b.email else a.email,
                 phone := if b.phone.isSome then b.phone else a.phone,
                 flight_number :=
                   if b.flight_number.isSome then b.flight_number
                   else a.flight_number,
                 booking_reference :=
                   if b.booking_reference.isSome then b.booking_reference
                   else a.booking_reference }) ∧
    (∀ A B C : Option PassengerInfo,
        merge_passenger_info (merge_passenger_info A B) C =
          merge_passenger_info A (merge_passenger_info B C)) ∧
    (∀ a : PassengerInfo,
        merge_passenger_info (some nullPassengerInfo) (some a) = some a ∧
        merge_passenger_info (some a) (some nullPassengerInfo) = some a) ∧
    (∀ A B : Option PassengerInfo,
        merge_passenger_info (merge_passenger_info A B) B =
          merge_passenger_info A B) := by
  refine ⟨?_, ?_, ?_, ?_⟩
  · intro a b
    have hf : ∀ x y : Option String,
        mergeField x y = if y.isSome then y else x := by
      intro x y; cases y <;> rfl
    simp [merge_passenger_info, hf]
  · intro A B C
    cases A with
    | none => rfl
    | some a =>
      cases B with
      | none => rfl
      | some b =>
        cases C with
        | none => rfl
        | some c => simp [merge_passenger_info, mergeField_assoc]
  · intro a
    constructor
    · cases a with
      | mk n e p f b =>
        cases n <;> cases e <;> cases p <;> cases f <;> cases b <;>
          rfl
    · cases a; rfl
  · intro A B
    cases A with
    | none => exact merge_passenger_info_self B
    | some a =>
      cases B with
      | none => rfl
      | some b => simp [merge_passenger_info, mergeField_self_right]

/-! ## Graph processor: workflow state and the Decide stage -/

/-- The slice of `ComplaintState` (`src/graph_processor.py`) read by the
`_decide_action` and `_execute_action` nodes.  `state.get(key)` on a key that
may be absent or `None` is modelled by an `Option`; `state.get("ticket_exists")`
and `state.get("info_complete")` are booleans (absent defaults to falsy, folded
into `Bool`). -/
structure ComplaintState where
  thread_id : Option String
  passenger_info : Option PassengerInfo
  original_complaint : Option String
  category : Option Category
  priority : Option Priority
  assigned_team : Option String
  ticket_id : Option String
  ticket_exists : Bool
  info_complete : Bool
deriving Repr

/-- The keys of the dict returned by `_decide_action`. -/
structure DecideResult where
  next_action : String
  missing_fields : List String
  action_type : String
deriving DecidableEq, Repr

/-- The "check what is missing" block of `_decide_action`
(`src/graph_processor.py`): name check, then contact check (email or phone),
then complaint check, appended in that order.  `if not info.name` is Python
truthiness on an optional string; a present `passenger_info` model object is
always truthy. -/
def decideMissing (state : ComplaintState) : List String :=
  (match state.passenger_info with
   | some info =>
       (if !truthyStr info.name then ["name"] else []) ++
       (if !truthyStr info.email && !truthyStr info.phone then
          ["contact information (email or phone)"]
        else [])
   | none => ["name", "contact information"]) ++
  (if !truthyStr state.original_complaint then ["complaint details"] else [])

/-- `_decide_action` from `src/graph_processor.py`: the decision chain
`ticket_exists` → execute, `elif missing` → respond, `elif info_complete` →
analyze, `else` → respond. -/
def decide_action (state : ComplaintState) : DecideResult :=
  if state.ticket_exists then
    { next_action := "execute", missing_fields := decideMissing state,
      action_type := "execute" }
  else if !(decideMissing state).isEmpty then
    { next_action := "respond", missing_fields := decideMissing state,
      action_type := "request_info" }
  else if state.info_complete then
    { next_action := "analyze", missing_fields := decideMissing state,
      action_type := "analyze" }
  else
    { next_action := "respond", missing_fields := decideMissing state,
      action_type := "acknowledge" }

/-- Spec-side abstraction: which conceptual field a human-readable
missing-field label stands for ("name", one of the two contact labels, or
"complaint details"). -/
inductive MissingKind
  | name | contact | complaint
deriving DecidableEq, Repr

/-- Classify each missing-field label emitted by `_decide_action`. -/
def missingKind : String → MissingKind
  | "name" => .name
  | "contact information" => .contact
  | "contact information (email or phone)" => .contact
  | _ => .complaint

/-- Spec-side: the state carries a (truthy) passenger name. -/
def hasName (state : ComplaintState) : Bool :=
  match state.passenger_info with
  | some info => truthyStr info.name
  | none => false

/-- Spec-side: the state carries a (truthy) email or phone. -/
def hasContact (state : ComplaintState) : Bool :=
  match state.passenger_info with
  | some info => truthyStr info.email || truthyStr info.phone
  | none => false

/-- Spec-side: the state carries a (truthy) complaint text. -/
def hasComplaint (state : ComplaintState) : Bool :=
  truthyStr state.original_complaint

/-- C1: in the Decide stage, the missing-field list is exactly
name-check, then contact-check (email or phone), then complaint-check, in that
fixed order; and the routing follows the strict priority: existing ticket →
execute, else missing fields → respond, else info complete → analyze, else
respond. -/
theorem c1_decide_action_priority (state : ComplaintState) :
    ((decide_action state).missing_fields.map missingKind =
      (if hasName state then [] else [MissingKind.name]) ++
      (if hasContact state then [] else [MissingKind.contact]) ++
      (if hasComplaint state then [] else [MissingKind.complaint])) ∧
    ((decide_action state).next_action =
      if state.ticket_exists then "execute"
      else if !(decide_action state).missing_fields.isEmpty then "respond"
      else if state.info_complete then "analyze"
      else "respond") := by
  have hmiss : (decide_action state).missing_fields = decideMissing state := by
    unfold decide_action
    split
    · rfl
    · split
      · rfl
      · split <;> rfl
  constructor
  · rw [hmiss]
    cases hpi : state.passenger_info with
    | none =>
        cases hc : truthyStr state.original_complaint <;>
          simp [decideMissing, hasName, hasContact, hasComplaint, hpi, hc,
            missingKind]
    | some info =>
        cases hn : truthyStr info.name <;>
          cases he : truthyStr info.email <;>
          cases hp : truthyStr info.phone <;>
          cases hc : truthyStr state.original_complaint <;>
          simp [decideMissing, hasName, hasContact, hasComplaint, hpi, hn,
            he, hp, hc, missingKind]
  · rw [hmiss]
    cases hte : state.ticket_exists <;>
      cases hic : state.info_complete <;>
      cases hm : (decideMissing state).isEmpty <;>
      simp [decide_action, hte, hic, hm]

/-! ## Database manager (`src/database.py`)

The `tickets` table is modelled as a list of rows in insertion order.  The
Python layer catches every backend exception and reports success as a boolean,
so each operation here returns its result together with the (possibly
unchanged) table.  Timestamps are abstract `Nat` instants; `CURRENT_TIMESTAMP`
is the `now` parameter. -/

/-- One row of the `tickets` table (all columns of the `CREATE TABLE` in
`init_tables`). -/
structure Ticket where
  ticket_id : String
  thread_id : Option String
  passenger_name : Option String
  passenger_email : Option String
  passenger_phone : Option String
  flight_number : Option String
  booking_reference : Option String
  original_complaint : Option String
  category : Option String
  priority : Option String
  assigned_team : Option String
  status : Option String
  created_at : Nat
  updated_at : Nat
deriving DecidableEq, Repr

/-- The columns of the `tickets` table that a dynamic
`SET <field> = %s` can name without a SQL error, other than the three keys
`update_ticket` drops before building the query. -/
def validUpdateColumn (field : String) : Bool :=
  field == "passenger_name" || field == "passenger_email" ||
  field == "passenger_phone" || field == "flight_number" ||
  field == "booking_reference" || field == "original_complaint" ||
  field == "category" || field == "priority" ||
  field == "assigned_team" || field == "status" || field == "updated_at"

/-- Effect of one `SET <field> = %s` assignment on a row.  Only called on
columns accepted by `validUpdateColumn`; other names leave the row unchanged
(they are rejected before any write by `update_ticket`).  `updated_at` stores
string-encoded instants only through the dedicated `now` path, so a direct
assignment to it is modelled as a no-op on the abstract timestamp. -/
def setTicketField (t : Ticket) (field : String) (value : String) : Ticket :=
  if field == "passenger_name" then { t with passenger_name := some value }
  else if field == "passenger_email" then { t with passenger_email := some value }
  else if field == "passenger_phone" then { t with passenger_phone := some value }
  else if field == "flight_number" then { t with flight_number := some value }
  else if field == "booking_reference" then { t with booking_reference := some value }
  else if field == "original_complaint" then { t with original_complaint := some value }
  else if field == "category" then { t with category := some value }
  else if field == "priority" then { t with priority := some value }
  else if field == "assigned_team" then { t with assigned_team := some value }
  else if field == "status" then { t with status := some value }
  else t

/-- The identity keys silently dropped by `update_ticket` before building the
query: `if field not in ['ticket_id', 'thread_id', 'created_at']`. -/
def isIdentityKey (field : String) : Bool :=
  field == "ticket_id" || field == "thread_id" || field == "created_at"

/-- The entries of the update dict that survive the identity-key drop (the
`update_fields` list built by `update_ticket`). -/
def keptUpdates (updates : List (String × String)) : List (String × String) :=
  updates.filter (fun kv => !isIdentityKey kv.1)

/-- `DatabaseManager.update_ticket`.  The update dict is an ordered list of
key/value pairs.  Identity keys are dropped; if nothing remains the function
returns `True` without touching the table; a remaining key that is not a real
column makes the SQL statement fail, which is caught and reported as `False`
with the transaction rolled back; otherwise every row whose `ticket_id`
matches is updated and stamped `updated_at = CURRENT_TIMESTAMP`.  The Python
caller may pass `ticket_id = None` (`tid = none`), in which case the `WHERE`
clause matches no row. -/
def update_ticket (db : List Ticket) (tid : Option String)
    (updates : List (String × String)) (now : Nat) : Bool × List Ticket :=
  if (keptUpdates updates).isEmpty then (true, db)
  else if (keptUpdates updates).all (fun kv => validUpdateColumn kv.1) then
    (true,
     db.map (fun t =>
       if some t.ticket_id == tid then
         { (keptUpdates updates).foldl
             (fun acc kv => setTicketField acc kv.1 kv.2) t with
             updated_at := now }
       else t))
  else (false, db)

/-- `DatabaseManager.create_ticket`: an `INSERT` that fails (reported as
`False`, nothing written) when it violates the `ticket_id` primary key or the
`UNIQUE(thread_id)` constraint (SQL `NULL`s never conflict), and otherwise
appends the row. -/
def create_ticket (db : List Ticket) (t : Ticket) : Bool × List Ticket :=
  if db.any (fun u =>
      u.ticket_id == t.ticket_id ||
      (t.thread_id.isSome && u.thread_id == t.thread_id)) then
    (false, db)
  else (true, db ++ [t])

/-- `DatabaseManager.get_ticket_by_thread`: `SELECT * WHERE thread_id = %s`
with `fetchone`, i.e. the first matching row. -/
def get_ticket_by_thread (db : List Ticket) (thread_id : String) :
    Option Ticket :=
  db.find? (fun t => t.thread_id == some thread_id)

/-- C10: a call to `update_ticket` whose field map is empty or names only the
ignored identity keys `ticket_id` / `thread_id` / `created_at` returns `True`
and performs no write: the keys are silently dropped, every ticket is left
unchanged. -/
theorem c10_update_ticket_identity_keys_noop (db : List Ticket)
    (tid : Option String) (updates : List (String × String)) (now : Nat)
    (h : ∀ kv ∈ updates, isIdentityKey kv.1 = true) :
    update_ticket db tid updates now = (true, db) := by
  have hkept : keptUpdates updates = [] := by
    rw [keptUpdates, List.filter_eq_nil_iff]
    intro kv hkv
    simp [h kv hkv]
  unfold update_ticket
  rw [hkept]
  rfl

/-- Witness for C10: a concrete call whose map holds only identity keys
returns `True` and leaves the concrete one-row table unchanged. -/
theorem c10_update_ticket_identity_keys_noop_witness :
    (∀ kv ∈ [("ticket_id", "TCK-X"), ("thread_id", "th9"),
             ("created_at", "0")], isIdentityKey kv.1 = true) ∧
    update_ticket
      [{ ticket_id := "TCK-20240101-ABCDEF", thread_id := some "th1",
         passenger_name := some "Jo", passenger_email := none,
         passenger_phone := none, flight_number := none,
         booking_reference := none, original_complaint := some "lost bag",
         category := none, priority := none, assigned_team := none,
         status := some "OPEN", created_at := 3, updated_at := 3 }]
      (some "TCK-20240101-ABCDEF")
      [("ticket_id", "TCK-X"), ("thread_id", "th9"), ("created_at", "0")] 7 =
    (true,
     [{ ticket_id := "TCK-20240101-ABCDEF", thread_id := some "th1",
        passenger_name := some "Jo", passenger_email := none,
        passenger_phone := none, flight_number := none,
        booking_reference := none, original_complaint := some "lost bag",
        category := none, priority := none, assigned_team := none,
        status := some "OPEN", created_at := 3, updated_at := 3 }]) :=
  ⟨by decide, c10_update_ticket_identity_keys_noop _ _ _ _ (by decide)⟩

/-! ## Ticket id synthesis

`f"TCK-{datetime.now().strftime('%Y%m%d')}-{uuid.uuid4().hex[:6].upper()}"`
(identical in `graph_processor._execute_action` and
`trustcall_processor._create_ticket`).  `datetime.now()` is the naive LOCAL
wall clock; one instant is therefore modelled as the pair of the calendar
dates it has on the local clock and in UTC, which differ near midnight in any
non-UTC timezone.  `uuid.uuid4().hex` is a 32-character lowercase-hex string
from the random source, modelled as a list of characters. -/

/-- A calendar date as rendered by `strftime('%Y%m%d')` components. -/
structure DateYMD where
  year : Nat
  month : Nat
  day : Nat
deriving DecidableEq, Repr

/-- Zero-padded two-digit rendering (`%m`, `%d`). -/
def pad2 (n : Nat) : String :=
  if n < 10 then "0" ++ toString n else toString n

/-- Zero-padded four-digit rendering (`%Y` for common-era years). -/
def pad4 (n : Nat) : String :=
  if n < 10 then "000" ++ toString n
  else if n < 100 then "00" ++ toString n
  else if n < 1000 then "0" ++ toString n
  else toString n

/-- `strftime('%Y%m%d')`. -/
def fmtYYYYMMDD (d : DateYMD) : String :=
  pad4 d.year ++ pad2 d.month ++ pad2 d.day

/-- One instant of time: the calendar date `datetime.now()` sees (local wall
clock) and the calendar date of the same instant in UTC. -/
structure Instant where
  localDate : DateYMD
  utcDate : DateYMD
deriving DecidableEq, Repr

/-- `uuid.uuid4().hex[:6].upper()`: first six characters, uppercased. -/
def uuidSuffix (uuidHex : List Char) : List Char :=
  (uuidHex.take 6).map Char.toUpper

/-- The ticket id synthesized on the create path.  It reads the LOCAL date of
the current instant (`datetime.now()`), not the UTC date. -/
def mkTicketId (inst : Instant) (uuidHex : List Char) : String :=
  "TCK-" ++ fmtYYYYMMDD inst.localDate ++ "-" ++ String.mk (uuidSuffix uuidHex)

/-- The sixteen characters `uuid4().hex` draws from. -/
def isLowerHexChar (c : Char) : Bool :=
  c ∈ ['a', 'b', 'c', 'd', 'e', 'f'] ||
  c ∈ ['0', '9', '1', '8', '2', '7', '3', '6', '4', '5']

/-- Uppercase hexadecimal characters. -/
def isUpperHexChar (c : Char) : Bool :=
  c ∈ ['A', 'B', 'C', 'D', 'E', 'F'] ||
  c ∈ ['0', '9', '1', '8', '2', '7', '3', '6', '4', '5']

theorem toUpper_lower_hex (c : Char) (h : isLowerHexChar c = true) :
    isUpperHexChar c.toUpper = true := by
  simp only [isLowerHexChar, Bool.or_eq_true, List.mem_cons,
    decide_eq_true_eq, List.not_mem_nil, or_false] at h
  rcases h with (h | h | h | h | h | h) |
    (h | h | h | h | h | h | h | h | h | h) <;>
    subst h <;> decide

/-! ## Graph processor: the Execute stage -/

/-- The keys of the dict returned by `_execute_action` (the update branch
returns no `ticket_id` key, modelled as `none`). -/
structure ExecResult where
  action_result : String
  ticket_id : Option String
deriving DecidableEq, Repr

/-- The update dict built by the existing-ticket branch of `_execute_action`:
phone, email (when a `passenger_info` is present and the field is truthy),
then the complaint text (when truthy). -/
def graphBuildUpdates (state : ComplaintState) : List (String × String) :=
  (match state.passenger_info with
   | some info =>
       (match info.phone with
        | some p => if p == "" then [] else [("passenger_phone", p)]
        | none => []) ++
       (match info.email with
        | some e => if e == "" then [] else [("passenger_email", e)]
        | none => [])
   | none => []) ++
  (match state.original_complaint with
   | some c => if c == "" then [] else [("original_complaint", c)]
   | none => [])

/-- The `ticket_data` dict built by the create branch of `_execute_action`. -/
def graphTicketData (state : ComplaintState) (inst : Instant)
    (uuidHex : List Char) (now : Nat) : Ticket :=
  { ticket_id := mkTicketId inst uuidHex,
    thread_id := state.thread_id,
    passenger_name := (state.passenger_info.map (·.name)).join,
    passenger_email := (state.passenger_info.map (·.email)).join,
    passenger_phone := (state.passenger_info.map (·.phone)).join,
    flight_number := (state.passenger_info.map (·.flight_number)).join,
    booking_reference := (state.passenger_info.map (·.booking_reference)).join,
    original_complaint := state.original_complaint,
    category := state.category.map Category.value,
    priority := state.priority.map Priority.value,
    assigned_team := state.assigned_team,
    status := some "OPEN",
    created_at := now, updated_at := now }

/-- `_execute_action` from `src/graph_processor.py`: update the existing
ticket, or synthesize an id and create a new one; the store's boolean result
is folded into the `action_result` tag, never raised. -/
def execute_action (state : ComplaintState) (db : List Ticket) (inst : Instant)
    (uuidHex : List Char) (now : Nat) : ExecResult × List Ticket :=
  if state.ticket_exists then
    let r := update_ticket db state.ticket_id (graphBuildUpdates state) now
    ({ action_result := if r.1 then "ticket_updated" else "update_failed",
       ticket_id := none }, r.2)
  else
    let data := graphTicketData state inst uuidHex now
    let r := create_ticket db data
    ({ action_result := if r.1 then "ticket_created" else "creation_failed",
       ticket_id := if r.1 then some data.ticket_id else none }, r.2)

/-- C5: the Execute stage reports its outcome exclusively through the
action-result tag — `ticket_created` / `creation_failed` on the create path
and `ticket_updated` / `update_failed` on the update path, determined by the
boolean the store operation returns (the store layer catches its own
exceptions, so failure arrives as data, never as an exception). -/
theorem c5_execute_action_result_tags (state : ComplaintState)
    (db : List Ticket) (inst : Instant) (uuidHex : List Char) (now : Nat) :
    ((execute_action state db inst uuidHex now).1.action_result =
      if state.ticket_exists then
        (if (update_ticket db state.ticket_id (graphBuildUpdates state)
              now).1 then "ticket_updated" else "update_failed")
      else
        (if (create_ticket db (graphTicketData state inst uuidHex now)).1 then
          "ticket_created" else "creation_failed")) ∧
    (execute_action state db inst uuidHex now).1.action_result ∈
      ["ticket_created", "creation_failed", "ticket_updated",
       "update_failed"] := by
  constructor
  · cases hte : state.ticket_exists <;> simp [execute_action, hte]
  · cases hte : state.ticket_exists <;>
      simp only [execute_action, hte, Bool.false_eq_true, if_false, if_true] <;>
      split <;> simp

/-- Spec-side: an update entry names one of the three updatable fields
(phone, email, complaint text) and carries a non-empty value. -/
def updatableNonEmpty (kv : String × String) : Bool :=
  (kv.1 == "passenger_phone" || kv.1 == "passenger_email" ||
   kv.1 == "original_complaint") && !(kv.2 == "")

/-- Spec-side frame relation between a stored ticket and its successor after
one Execute update: the identity fields `ticket_id`, `thread_id`,
`created_at` are unchanged, every field outside the three updatable ones is
unchanged, and each updatable field is either unchanged or holds a non-empty
value (so nothing is overwritten with an empty/null value). -/
def ticketFrameRel (t u : Ticket) : Prop :=
  u.ticket_id = t.ticket_id ∧ u.thread_id = t.thread_id ∧
  u.created_at = t.created_at ∧
  u.passenger_name = t.passenger_name ∧
  u.flight_number = t.flight_number ∧
  u.booking_reference = t.booking_reference ∧
  u.category = t.category ∧ u.priority = t.priority ∧
  u.assigned_team = t.assigned_team ∧ u.status = t.status ∧
  (u.passenger_phone = t.passenger_phone ∨
    truthyStr u.passenger_phone = true) ∧
  (u.passenger_email = t.passenger_email ∨
    truthyStr u.passenger_email = true) ∧
  (u.original_complaint = t.original_complaint ∨
    truthyStr u.original_complaint = true)

theorem ticketFrameRel_refl (t : Ticket) : ticketFrameRel t t := by
  refine ⟨rfl, rfl, rfl, rfl, rfl, rfl, rfl, rfl, rfl, rfl, ?_, ?_, ?_⟩ <;>
    exact Or.inl rfl

theorem ticketFrameRel_set (t u : Ticket) (kv : String × String)
    (hkv : updatableNonEmpty kv = true) (h : ticketFrameRel t u) :
    ticketFrameRel t (setTicketField u kv.1 kv.2) := by
  obtain ⟨k, v⟩ := kv
  obtain ⟨h1, h2, h3, h4, h5, h6, h7, h8, h9, h10, h11, h12, h13⟩ := h
  simp only [updatableNonEmpty, Bool.and_eq_true, Bool.or_eq_true,
    beq_iff_eq, Bool.not_eq_true', beq_eq_false_iff_ne, ne_eq] at hkv
  obtain ⟨(hk | hk) | hk, hv⟩ := hkv
  · subst hk
    simp only [setTicketField]
    simp only [beq_iff_eq, String.reduceEq, if_false, if_true, reduceIte]
    exact ⟨h1, h2, h3, h4, h5, h6, h7, h8, h9, h10,
      Or.inr (by simp [truthyStr, hv]), h12, h13⟩
  · subst hk
    simp only [setTicketField]
    simp only [beq_iff_eq, String.reduceEq, if_false, if_true, reduceIte]
    exact ⟨h1, h2, h3, h4, h5, h6, h7, h8, h9, h10, h11,
      Or.inr (by simp [truthyStr, hv]), h13⟩
  · subst hk
    simp only [setTicketField]
    simp only [beq_iff_eq, String.reduceEq, if_false, if_true, reduceIte]
    exact ⟨h1, h2, h3, h4, h5, h6, h7, h8, h9, h10, h11, h12,
      Or.inr (by simp [truthyStr, hv])⟩


theorem ticketFrameRel_foldl (upds : List (String × String))
    (hgood : ∀ kv ∈ upds, updatableNonEmpty kv = true) :
    ∀ t u : Ticket, ticketFrameRel t u →
      ticketFrameRel t
        (upds.foldl (fun acc kv => setTicketField acc kv.1 kv.2) u) := by
  induction upds with
  | nil => intro t u h; exact h
  | cons kv tl ih =>
      intro t u h
      simp only [List.foldl_cons]
      exact ih (fun x hx => hgood x (List.mem_cons_of_mem kv hx)) t _
        (ticketFrameRel_set t u kv (hgood kv (List.mem_cons_self kv tl)) h)

theorem ticketFrameRel_stamp (t u : Ticket) (now : Nat)
    (h : ticketFrameRel t u) :
    ticketFrameRel t { u with updated_at := now } := h

theorem graphBuildUpdates_updatable (state : ComplaintState) :
    ∀ kv ∈ graphBuildUpdates state, updatableNonEmpty kv = true := by
  intro kv hkv
  unfold graphBuildUpdates at hkv
  rcases List.mem_append.1 hkv with hl | hr
  · cases hpi : state.passenger_info with
    | none => rw [hpi] at hl; simp at hl
    | some info =>
        rw [hpi] at hl
        rcases List.mem_append.1 hl with hp | he
        · cases hph : info.phone with
          | none => rw [hph] at hp; simp at hp
          | some p =>
              rw [hph] at hp
              by_cases hpe : p = "" <;> simp [hpe] at hp
              rw [hp]
              simp [updatableNonEmpty, hpe]
        · cases hem : info.email with
          | none => rw [hem] at he; simp at he
          | some e =>
              rw [hem] at he
              by_cases hee : e = "" <;> simp [hee] at he
              rw [he]
              simp [updatableNonEmpty, hee]
  · cases hoc : state.original_complaint with
    | none => rw [hoc] at hr; simp at hr
    | some c =>
        rw [hoc] at hr
        by_cases hce : c = "" <;> simp [hce] at hr
        rw [hr]
        simp [updatableNonEmpty, hce]

/-- C9: on the update path of Execute, every entry sent to the store's update
operation names one of the three updatable fields and carries a non-empty
value, and the resulting table is row-wise frame-related to the old one: the
identity fields `ticket_id`, `thread_id`, `created_at` are never modified, no
other field changes except the three updatable ones, and those are never
overwritten with an empty/null value. -/
theorem c9_execute_update_frame (state : ComplaintState) (db : List Ticket)
    (inst : Instant) (uuidHex : List Char) (now : Nat)
    (h : state.ticket_exists = true) :
    (∀ kv ∈ graphBuildUpdates state, updatableNonEmpty kv = true) ∧
    List.Forall₂ ticketFrameRel db
      (execute_action state db inst uuidHex now).2 := by
  refine ⟨graphBuildUpdates_updatable state, ?_⟩
  simp only [execute_action, h, if_true]
  unfold update_ticket
  split
  · exact (List.forall₂_same).2 fun t _ => ticketFrameRel_refl t
  · split
    · rw [List.forall₂_map_right_iff]
      refine (List.forall₂_same).2 fun t _ => ?_
      split
      · refine ticketFrameRel_stamp t _ now ?_
        refine ticketFrameRel_foldl _ ?_ t t (ticketFrameRel_refl t)
        intro kv hkv
        exact graphBuildUpdates_updatable state kv (List.mem_of_mem_filter hkv)
      · exact ticketFrameRel_refl t
    · exact (List.forall₂_same).2 fun t _ => ticketFrameRel_refl t

/-- Witness for C9: a concrete state with an existing ticket and a concrete
one-row table; the hypothesis is discharged and the frame conclusion follows
from the theorem. -/
theorem c9_execute_update_frame_witness :
    ({ thread_id := some "th1", passenger_info := some
         { name := some "Jo", email := none, phone := some "555",
           flight_number := none, booking_reference := none },
       original_complaint := some "bag lost",
       category := none, priority := none, assigned_team := none,
       ticket_id := some "TCK-20240101-ABCDEF", ticket_exists := true,
       info_complete := true } : ComplaintState).ticket_exists = true ∧
    ((∀ kv ∈ graphBuildUpdates
        { thread_id := some "th1", passenger_info := some
            { name := some "Jo", email := none, phone := some "555",
              flight_number := none, booking_reference := none },
          original_complaint := some "bag lost",
          category := none, priority := none, assigned_team := none,
          ticket_id := some "TCK-20240101-ABCDEF", ticket_exists := true,
          info_complete := true }, updatableNonEmpty kv = true) ∧
     List.Forall₂ ticketFrameRel
       [{ ticket_id := "TCK-20240101-ABCDEF", thread_id := some "th1",
          passenger_name := some "Jo", passenger_email := none,
          passenger_phone := none, flight_number := none,
          booking_reference := none, original_complaint := some "bag lost",
          category := none, priority := none, assigned_team := none,
          status := some "OPEN", created_at := 3, updated_at := 3 }]
       (execute_action
         { thread_id := some "th1", passenger_info := some
             { name := some "Jo", email := none, phone := some "555",
               flight_number := none, booking_reference := none },
           original_complaint := some "bag lost",
           category := none, priority := none, assigned_team := none,
           ticket_id := some "TCK-20240101-ABCDEF", ticket_exists := true,
           info_complete := true }
         [{ ticket_id := "TCK-20240101-ABCDEF", thread_id := some "th1",
            passenger_name := some "Jo", passenger_email := none,
            passenger_phone := none, flight_number := none,
            booking_reference := none, original_complaint := some "bag lost",
            category := none, priority := none, assigned_team := none,
            status := some "OPEN", created_at := 3, updated_at := 3 }]
         { localDate := { year := 2024, month := 1, day := 2 },
           utcDate := { year := 2024, month := 1, day := 2 } }
         "0123456789abcdef0123456789abcdef".data 9).2) :=
  ⟨rfl, c9_execute_update_frame _ _ _ _ _ rfl⟩

/-- C8 counterexample: at an instant in a timezone ahead of UTC shortly after
local midnight — local date 2025-01-01, same instant's UTC date 2024-12-31 —
the id synthesized by the create path carries the LOCAL date
(`datetime.now()`), so it is not of the form
`TCK-<currentDateUTC:YYYYMMDD>-<suffix>` that the claim prescribes. -/
theorem c8_ticket_id_not_utc_counterexample :
    mkTicketId
      { localDate := { year := 2025, month := 1, day := 1 },
        utcDate := { year := 2024, month := 12, day := 31 } }
      "0123456789abcdef0123456789abcdef".data = "TCK-20250101-012345" ∧
    mkTicketId
      { localDate := { year := 2025, month := 1, day := 1 },
        utcDate := { year := 2024, month := 12, day := 31 } }
      "0123456789abcdef0123456789abcdef".data ≠
      "TCK-" ++
        fmtYYYYMMDD { year := 2024, month := 12, day := 31 } ++ "-" ++
        String.mk (uuidSuffix "0123456789abcdef0123456789abcdef".data) := by
  constructor
  · rfl
  · decide

/-- C8 (amended): every ticket id synthesized on the create path has the form
`TCK-<date>-<suffix>` where `<date>` is the current date on the LOCAL wall
clock (`datetime.now()`, not UTC) formatted `YYYYMMDD`, and `<suffix>` is
exactly 6 uppercase hexadecimal characters drawn from the random source
(`uuid4().hex`, a 32-character lowercase-hex string). -/
theorem c8_ticket_id_format_local (inst : Instant) (uuidHex : List Char)
    (hlen : uuidHex.length = 32)
    (hhex : ∀ c ∈ uuidHex, isLowerHexChar c = true) :
    ∃ suffix : List Char,
      mkTicketId inst uuidHex =
        "TCK-" ++ fmtYYYYMMDD inst.localDate ++ "-" ++ String.mk suffix ∧
      suffix.length = 6 ∧
      ∀ c ∈ suffix, isUpperHexChar c = true := by
  refine ⟨uuidSuffix uuidHex, rfl, ?_, ?_⟩
  · simp [uuidSuffix, List.length_take, hlen]
  · intro c hc
    simp only [uuidSuffix, List.mem_map] at hc
    obtain ⟨a, ha, rfl⟩ := hc
    exact toUpper_lower_hex a (hhex a (List.take_subset 6 uuidHex ha))

/-- Witness for the amended C8: a concrete instant and a concrete 32-character
lowercase-hex random draw. -/
theorem c8_ticket_id_format_local_witness :
    ("0123456789abcdef0123456789abcdef".data.length = 32 ∧
     ∀ c ∈ "0123456789abcdef0123456789abcdef".data,
       isLowerHexChar c = true) ∧
    ∃ suffix : List Char,
      mkTicketId
        { localDate := { year := 2024, month := 6, day := 5 },
          utcDate := { year := 2024, month := 6, day := 5 } }
        "0123456789abcdef0123456789abcdef".data =
        "TCK-" ++
          fmtYYYYMMDD { year := 2024, month := 6, day := 5 } ++ "-" ++
          String.mk suffix ∧
      suffix.length = 6 ∧
      ∀ c ∈ suffix, isUpperHexChar c = true :=
  ⟨⟨by decide, by decide⟩,
   c8_ticket_id_format_local _ _ (by decide) (by decide)⟩

/-! ## Conversation Memory (`api_enhanced.py`, `process_complaint`) -/

/-- One entry of the per-conversation history
(`{"role": ..., "content": ...}`). -/
structure ConvTurn where
  role : String
  content : String
deriving DecidableEq, Repr

/-- The history update performed after each processed message in
`process_complaint`: append the user turn, then the assistant turn, then keep
only the last 20 entries (`conversation_store[thread_id] = history[-20:]`). -/
def storeHistoryUpdate (history : List ConvTurn)
    (userMsg assistantMsg : String) : List ConvTurn :=
  lastN 20 (history ++
    [{ role := "user", content := userMsg },
     { role := "assistant", content := assistantMsg }])

/-- The stored history of a conversation after processing a sequence of
(user message, assistant response) exchanges, starting from the empty history
an absent key yields. -/
def runConversationStore (msgs : List (String × String)) : List ConvTurn :=
  msgs.foldl (fun h m => storeHistoryUpdate h m.1 m.2) []

/-- The full, untruncated turn log of the same exchanges. -/
def allTurns (msgs : List (String × String)) : List ConvTurn :=
  msgs.flatMap (fun m =>
    [{ role := "user", content := m.1 },
     { role := "assistant", content := m.2 }])

theorem lastN_eq_reverse_take (n : Nat) (l : List α) :
    lastN n l = (l.reverse.take n).reverse :=
  List.rtake_eq_reverse_take_reverse l n

theorem lastN_append_lastN (n : Nat) (xs ys : List α) :
    lastN n (lastN n xs ++ ys) = lastN n (xs ++ ys) := by
  rw [lastN_eq_reverse_take, lastN_eq_reverse_take n (xs ++ ys),
    lastN_eq_reverse_take n xs]
  rw [List.reverse_append, List.reverse_reverse, List.reverse_append]
  rw [List.take_append_eq_append_take, List.take_append_eq_append_take,
    List.take_take]
  have hmin : min (n - ys.reverse.length) n = n - ys.reverse.length :=
    Nat.min_eq_left (Nat.sub_le n ys.reverse.length)
  rw [hmin]

theorem length_lastN (n : Nat) (l : List α) : (lastN n l).length ≤ n := by
  rw [lastN, List.length_drop]
  omega

theorem runConversationStore_general (msgs : List (String × String)) :
    ∀ acc : List ConvTurn,
      msgs.foldl (fun h m => storeHistoryUpdate h m.1 m.2) (lastN 20 acc) =
        lastN 20 (acc ++ allTurns msgs) := by
  induction msgs with
  | nil => intro acc; simp [allTurns]
  | cons m tl ih =>
      intro acc
      rw [List.foldl_cons]
      have hstep :
          storeHistoryUpdate (lastN 20 acc) m.1 m.2 =
            lastN 20 (acc ++
              [{ role := "user", content := m.1 },
               { role := "assistant", content := m.2 }]) := by
        rw [storeHistoryUpdate, lastN_append_lastN]
      rw [hstep, ih]
      rw [List.append_assoc]
      rfl

/-- C7: the per-conversation history store is bounded — after any number of
processed messages the stored history is exactly the last 20 entries of the
full turn log (user turn then assistant turn per message, oldest dropped
first), its length never exceeds 20, and it is a suffix of the full log, so
it holds the most recent entries in original order. -/
theorem c7_conversation_store_bounded (msgs : List (String × String)) :
    runConversationStore msgs = lastN 20 (allTurns msgs) ∧
    (runConversationStore msgs).length ≤ 20 ∧
    (allTurns msgs).take ((allTurns msgs).length - 20) ++
      runConversationStore msgs = allTurns msgs := by
  have hmain : runConversationStore msgs = lastN 20 (allTurns msgs) := by
    have h := runConversationStore_general msgs []
    simpa [runConversationStore, lastN] using h
  refine ⟨hmain, ?_, ?_⟩
  · rw [hmain]; exact length_lastN 20 (allTurns msgs)
  · rw [hmain, lastN]
    exact List.take_append_drop _ (allTurns msgs)

/-! ## TrustCall processor (`src/trustcall_processor.py`)

`process_message` makes at most one call to the structured judgment oracle;
that call's outcome is the `oracle : Except Unit ActionResponse` parameter
(`Except.error` models the call raising).  The output carries the number of
oracle calls actually consulted, so fast-path claims can state that the call
count is zero.  Exceptions raised inside the dispatched helpers (subscripting
a `None` `existing_ticket`, `missing_fields[-1]` on an empty list) propagate
to the same outer `try` as an oracle failure; they are modelled by the helper
returning `none` in place of a result. -/

/-- One entry of `conversation_history`
(`{"role": ..., "content": ...}`). -/
structure HMsg where
  role : String
  content : String
deriving DecidableEq, Repr

/-- `CreateTicketAction` structured output (without its literal tag). -/
structure CreateTicketAction where
  passenger_info : PassengerInfo
  complaint : String
  priority : Priority
  category : Category
deriving Repr

/-- `UpdateTicketAction` structured output.  The `corrections` dict is an
ordered association list. -/
structure UpdateTicketAction where
  ticket_id : String
  passenger_phone : Option String
  passenger_email : Option String
  flight_number : Option String
  complaint_update : Option String
  corrections : Option (List (String × String))
deriving Repr

/-- `RequestInfoAction` structured output. -/
structure RequestInfoAction where
  missing_fields : List String
  current_info : PassengerInfo
deriving Repr

/-- `AcknowledgeAction` structured output. -/
structure AcknowledgeAction where
  message : String
deriving Repr

/-- The `ActionResponse` union: the discriminated action the oracle decides. -/
inductive ActionResponse
  | create (a : CreateTicketAction)
  | update (a : UpdateTicketAction)
  | requestInfo (a : RequestInfoAction)
  | acknowledge (a : AcknowledgeAction)
deriving Repr

/-- The dict returned by `process_message` (keys absent from a given return
are `none`). -/
structure PMResult where
  response : String
  status : String
  ticket_id : Option String := none
  missing_fields : Option (List String) := none
deriving DecidableEq, Repr

/-- The observable outcome of one `process_message` call: its returned dict,
the ticket table afterwards, and how many oracle calls were consulted. -/
structure PMOutput where
  result : PMResult
  db : List Ticket
  portCalls : Nat
deriving DecidableEq, Repr

/-- The fixed `trivial_messages` set. -/
def trivial_messages : List String :=
  ["ok", "okay", "thanks", "thank you", "yes", "no", "sure",
   "got it", "understood", "alright", "fine", "good", "great"]

/-- Python `str.lower()` (character-wise, as for the ASCII text handled
here). -/
def pyLower (s : String) : String := String.mk (s.data.map Char.toLower)

/-- Python `str.strip()`: drop leading and trailing whitespace. -/
def pyStrip (s : String) : String :=
  String.mk
    (((s.data.dropWhile fun c => c.isWhitespace).reverse.dropWhile
        fun c => c.isWhitespace).reverse)

/-- `message.lower().strip()`. -/
def normalizeMsg (message : String) : String := pyStrip (pyLower message)

/-- The trivial fast-path test: normalized message in the fixed set. -/
def isTrivial (message : String) : Bool :=
  trivial_messages.contains (normalizeMsg message)

/-- The most recent user turn's normalized content, if any (the reversed scan
with `break`). -/
def lastUserNorm (h : List HMsg) : Option String :=
  (h.reverse.find? (fun m => m.role == "user")).map
    (fun m => pyStrip (pyLower m.content))

/-- The duplicate test: non-empty history whose last user turn's normalized
content is non-empty (Python truthiness) and equals the normalized current
message. -/
def isDuplicate (h : List HMsg) (message : String) : Bool :=
  !h.isEmpty &&
  (match lastUserNorm h with
   | some s => !(s == "") && (s == normalizeMsg message)
   | none => false)

/-- Count of user turns in the history
(`len([m for m in history if role == 'user'])`). -/
def userTurnCount (h : List HMsg) : Nat :=
  (h.filter (fun m => m.role == "user")).length

/-- The open-ticket threshold gate: existing ticket status `OPEN` and more
than 10 prior user turns. -/
def overThreshold (t : Ticket) (h : List HMsg) : Bool :=
  (t.status == some "OPEN") && decide (userTurnCount h > 10)

def trivialAckResponse (t : Ticket) : String :=
  "Thank you. Your ticket " ++ t.ticket_id ++ " is being processed."

def awaitingComplaintResponse : String :=
  "How can I help you with your flight complaint today?"

def duplicateResponse : String :=
  "I\x27ve already received this message. Is there anything else you\x27d like to add?"

def thresholdResponse (t : Ticket) : String :=
  "Your ticket " ++ t.ticket_id ++
  " is already being processed. For urgent updates, please call our support line directly."

/-- The generic apology returned by the outer `except` handler. -/
def fallbackErrorResponse : String :=
  "I apologize, but I\x27m having trouble processing your request. Please try again or contact support directly."

/-- The `ticket_data` dict built by `TrustCallProcessor._create_ticket`. -/
def trustcallTicketData (a : CreateTicketAction) (thread_id : String)
    (inst : Instant) (uuidHex : List Char) (now : Nat) : Ticket :=
  { ticket_id := mkTicketId inst uuidHex,
    thread_id := some thread_id,
    passenger_name := a.passenger_info.name,
    passenger_email := a.passenger_info.email,
    passenger_phone := a.passenger_info.phone,
    flight_number := a.passenger_info.flight_number,
    booking_reference := a.passenger_info.booking_reference,
    original_complaint := some a.complaint,
    category := some a.category.value,
    priority := some a.priority.value,
    assigned_team := some (team_map a.priority),
    status := some "OPEN",
    created_at := now, updated_at := now }

/-- The confirmation text rendered by `_create_ticket` on success. -/
def createSuccessResponse (a : CreateTicketAction) (ticket_id : String) :
    String :=
  "Dear " ++ strOfOpt a.passenger_info.name ++
  ",\n\nThank you for contacting us. Your complaint has been registered.\n\n**Ticket Reference:** " ++
  ticket_id ++ "\n**Priority:** " ++ a.priority.value ++
  "\n**Category:** " ++ a.category.value ++
  "\n**Assigned to:** " ++ team_map a.priority ++
  "\n\nWe will respond within our service level agreement timeframe:\n- Critical: 2 hours\n- High: 6 hours\n- Medium: 24 hours\n- Low: 72 hours\n\nBest regards,\nCustomer Service Team"

/-- `TrustCallProcessor._create_ticket`: build the row, attempt the insert,
report `ticket_created` on success and `error` (with no ticket id) on store
failure. -/
def trustcall_create_ticket (a : CreateTicketAction) (thread_id : String)
    (db : List Ticket) (inst : Instant) (uuidHex : List Char) (now : Nat) :
    PMResult × List Ticket :=
  let data := trustcallTicketData a thread_id inst uuidHex now
  let r := create_ticket db data
  if r.1 then
    ({ response := createSuccessResponse a data.ticket_id,
       status := "ticket_created", ticket_id := some data.ticket_id }, r.2)
  else
    ({ response := "We encountered an error creating your ticket. Please try again.",
       status := "error", ticket_id := none }, r.2)

/-- Python ordered-dict insertion: an existing key is overwritten in place,
a new key is appended. -/
def dictInsert (d : List (String × String)) (k v : String) :
    List (String × String) :=
  if d.any (fun kv => kv.1 == k) then
    d.map (fun kv => if kv.1 == k then (kv.1, v) else kv)
  else d ++ [(k, v)]

/-- `field_map.get(field.lower(), field)` of the corrections loop in
`_update_ticket`. -/
def correctionsFieldMap (field : String) : String :=
  if field.toLower == "flight" then "flight_number"
  else if field.toLower == "email" then "passenger_email"
  else if field.toLower == "phone" then "passenger_phone"
  else field

/-- The `updates` dict built by `_update_ticket`: truthy direct fields in
order (phone, email, flight number, complaint update mapped to
`original_complaint`), then the corrections entries (mapped through
`correctionsFieldMap`; a `None` or empty corrections dict contributes
nothing, so it is folded over `getD []`). -/
def trustcallBuildUpdates (a : UpdateTicketAction) :
    List (String × String) :=
  let u1 : List (String × String) :=
    match a.passenger_phone with
    | some p => if p == "" then [] else dictInsert [] "passenger_phone" p
    | none => []
  let u2 :=
    match a.passenger_email with
    | some e => if e == "" then u1 else dictInsert u1 "passenger_email" e
    | none => u1
  let u3 :=
    match a.flight_number with
    | some f => if f == "" then u2 else dictInsert u2 "flight_number" f
    | none => u2
  let u4 :=
    match a.complaint_update with
    | some c => if c == "" then u3 else dictInsert u3 "original_complaint" c
    | none => u3
  (a.corrections.getD []).foldl
    (fun u kv => dictInsert u (correctionsFieldMap kv.1) kv.2) u4

/-- `TrustCallProcessor._update_ticket`.  The status is `ticket_updated`
whenever the updates dict is non-empty (the store's boolean result is
ignored) and `acknowledged` otherwise.  Every response template subscripts
`existing_ticket['passenger_name']`, which raises when no ticket row exists
for the conversation — modelled by `none` in the result position; note that
on the non-empty path the store update has already been committed by then.
The `existing_ticket.get('assigned_team', 'support')` default is dead: the
`SELECT *` row always carries the key, so a SQL `NULL` renders as `None`. -/
def trustcall_update_ticket (a : UpdateTicketAction) (existing : Option Ticket)
    (db : List Ticket) (now : Nat) : Option PMResult × List Ticket :=
  if (trustcallBuildUpdates a).isEmpty then
    match existing with
    | none => (none, db)
    | some ex =>
        (some { response :=
                  "Dear " ++ strOfOpt ex.passenger_name ++
                  ",\n\nThank you for your message regarding ticket " ++
                  a.ticket_id ++ ".\n\nYour ticket is being processed by our " ++
                  strOfOpt ex.assigned_team ++
                  " team.\n\nBest regards,\nCustomer Service Team",
                status := "acknowledged", ticket_id := some a.ticket_id }, db)
  else
    let r := update_ticket db (some a.ticket_id) (trustcallBuildUpdates a) now
    match existing with
    | none => (none, r.2)
    | some ex =>
        (some { response :=
                  "Dear " ++ strOfOpt ex.passenger_name ++
                  ",\n\nYour ticket " ++ a.ticket_id ++
                  " has been updated with the new information.\n\nThank you for providing these additional details.\n\nBest regards,\nCustomer Service Team",
                status := "ticket_updated", ticket_id := some a.ticket_id }, r.2)

/-- The `fields_text` grammar of `_request_info`: bare item for one field,
"A and B" for two, Oxford-comma list for three or more; `missing[-1]` raises
`IndexError` on an empty list (`none`). -/
def fieldsText : List String → Option String
  | [] => none
  | [x] => some x
  | [x, y] => some (x ++ " and " ++ y)
  | l => some (String.intercalate ", " l.dropLast ++ ", and " ++ l.getLastD "")

/-- `TrustCallProcessor._request_info`. -/
def trustcall_request_info (a : RequestInfoAction) : Option PMResult :=
  match fieldsText a.missing_fields with
  | none => none
  | some ft =>
      some { response :=
               "To process your complaint, I\x27ll need " ++ ft ++
               ".\n\nCould you please provide these details so I can create a ticket for you?",
             status := "awaiting_information",
             missing_fields := some a.missing_fields }

/-- `TrustCallProcessor._acknowledge`. -/
def trustcall_acknowledge (a : AcknowledgeAction) (existing : Option Ticket) :
    PMResult :=
  { response := a.message, status := "acknowledged",
    ticket_id := existing.map (·.ticket_id) }

/-- The oracle call and action dispatch inside the outer `try` of
`process_message`: an oracle failure — or an exception from a dispatched
helper — is caught and surfaces as the generic apology with status
`"error"`. -/
def oracleStage (db : List Ticket) (oracle : Except Unit ActionResponse)
    (existing : Option Ticket) (thread_id : String) (inst : Instant)
    (uuidHex : List Char) (now : Nat) : PMOutput :=
  match oracle with
  | .error _ =>
      { result := { response := fallbackErrorResponse, status := "error" },
        db := db, portCalls := 1 }
  | .ok (.create a) =>
      let r := trustcall_create_ticket a thread_id db inst uuidHex now
      { result := r.1, db := r.2, portCalls := 1 }
  | .ok (.update a) =>
      match trustcall_update_ticket a existing db now with
      | (some res, db2) => { result := res, db := db2, portCalls := 1 }
      | (none, db2) =>
          { result := { response := fallbackErrorResponse, status := "error" },
            db := db2, portCalls := 1 }
  | .ok (.requestInfo a) =>
      match trustcall_request_info a with
      | some res => { result := res, db := db, portCalls := 1 }
      | none =>
          { result := { response := fallbackErrorResponse, status := "error" },
            db := db, portCalls := 1 }
  | .ok (.acknowledge a) =>
      { result := trustcall_acknowledge a existing, db := db, portCalls := 1 }

/-- `TrustCallProcessor.process_message`: trivial fast path, duplicate fast
path, open-ticket threshold gate, then the single oracle call and dispatch. -/
def process_message (db : List Ticket) (oracle : Except Unit ActionResponse)
    (message : String) (thread_id : String)
    (conversation_history : List HMsg) (inst : Instant)
    (uuidHex : List Char) (now : Nat) : PMOutput :=
  if isTrivial message then
    match get_ticket_by_thread db thread_id with
    | some t =>
        { result := { response := trivialAckResponse t,
                      status := "acknowledged",
                      ticket_id := some t.ticket_id },
          db := db, portCalls := 0 }
    | none =>
        { result := { response := awaitingComplaintResponse,
                      status := "awaiting_complaint" },
          db := db, portCalls := 0 }
  else if isDuplicate conversation_history message then
    { result := { response := duplicateResponse,
                  status := "duplicate_message" },
      db := db, portCalls := 0 }
  else
    match get_ticket_by_thread db thread_id with
    | some t =>
        if overThreshold t conversation_history then
          { result := { response := thresholdResponse t,
                        status := "ticket_exists",
                        ticket_id := some t.ticket_id },
            db := db, portCalls := 0 }
        else oracleStage db oracle (some t) thread_id inst uuidHex now
    | none => oracleStage db oracle none thread_id inst uuidHex now

/-- Every run of `process_message` with a failing oracle either never reaches
the oracle (a fast path answered, zero calls) or returns the generic apology
with status `"error"` and the table untouched. -/
theorem process_message_oracle_error_cases (db : List Ticket) (e : Unit)
    (message thread_id : String) (hist : List HMsg) (inst : Instant)
    (uuidHex : List Char) (now : Nat) :
    (process_message db (Except.error e) message thread_id hist inst uuidHex
        now).portCalls = 0 ∨
    process_message db (Except.error e) message thread_id hist inst uuidHex
        now =
      { result := { response := fallbackErrorResponse, status := "error" },
        db := db, portCalls := 1 } := by
  unfold process_message
  split
  · split
    · left; rfl
    · left; rfl
  · split
    · left; rfl
    · split
      · split
        · left; rfl
        · right; rfl
      · right; rfl

/-- C3: when the structured judgment call fails (raises), `process_message`
still returns normally — the exception is caught at the outer boundary — with
the generic apology response and status `"error"`, and no ticket create or
update is committed: the table is exactly what it was. -/
theorem c3_oracle_failure_no_side_effects (db : List Ticket) (e : Unit)
    (message thread_id : String) (hist : List HMsg) (inst : Instant)
    (uuidHex : List Char) (now : Nat)
    (h : 1 ≤ (process_message db (Except.error e) message thread_id hist inst
        uuidHex now).portCalls) :
    (process_message db (Except.error e) message thread_id hist inst uuidHex
        now).result =
      { response := fallbackErrorResponse, status := "error" } ∧
    (process_message db (Except.error e) message thread_id hist inst uuidHex
        now).db = db := by
  rcases process_message_oracle_error_cases db e message thread_id hist inst
      uuidHex now with h0 | heq
  · rw [h0] at h
    exact absurd h (by norm_num)
  · rw [heq]
    exact ⟨rfl, rfl⟩

/-- Concrete fixtures used by the witnesses and counterexample below. -/
def sampleOpenTicket : Ticket :=
  { ticket_id := "TCK-20240101-ABC123", thread_id := some "th1",
    passenger_name := some "Jo", passenger_email := some "jo@x.com",
    passenger_phone := none, flight_number := some "AA123",
    booking_reference := none, original_complaint := some "Lost bag",
    category := some "BAGGAGE", priority := some "MEDIUM",
    assigned_team := some "Customer Service", status := some "OPEN",
    created_at := 1, updated_at := 1 }

/-- Eleven prior user turns in one conversation. -/
def elevenUserTurns : List HMsg :=
  List.replicate 11 { role := "user", content := "my bag is still missing" }

/-- A fixed instant whose local and UTC dates agree. -/
def sampleInstant : Instant :=
  { localDate := { year := 2024, month := 6, day := 5 },
    utcDate := { year := 2024, month := 6, day := 5 } }

/-- A fixed 32-character lowercase-hex random draw. -/
def sampleUuidHex : List Char := "0123456789abcdef0123456789abcdef".data

/-- Witness for C3: a non-trivial message on an empty conversation reaches
the failing oracle; the call count is 1 and the error contract holds. -/
theorem c3_oracle_failure_no_side_effects_witness :
    1 ≤ (process_message [] (Except.error ()) "My flight was cancelled" "th1"
        [] sampleInstant sampleUuidHex 2).portCalls ∧
    ((process_message [] (Except.error ()) "My flight was cancelled" "th1"
        [] sampleInstant sampleUuidHex 2).result =
      { response := fallbackErrorResponse, status := "error" } ∧
     (process_message [] (Except.error ()) "My flight was cancelled" "th1"
        [] sampleInstant sampleUuidHex 2).db = []) :=
  ⟨by decide,
   c3_oracle_failure_no_side_effects [] () "My flight was cancelled" "th1"
     [] sampleInstant sampleUuidHex 2 (by decide)⟩

/-- C4: a message whose trimmed, lowercased text is one of the fixed trivial
acknowledgment tokens terminates before any oracle call (zero calls, table
untouched): with an existing ticket for the conversation the status is
`"acknowledged"` and the result references that ticket id, otherwise the
status is `"awaiting_complaint"`. -/
theorem c4_trivial_fast_path (db : List Ticket)
    (oracle : Except Unit ActionResponse) (message thread_id : String)
    (hist : List HMsg) (inst : Instant) (uuidHex : List Char) (now : Nat)
    (h : isTrivial message = true) :
    (process_message db oracle message thread_id hist inst uuidHex
        now).portCalls = 0 ∧
    (process_message db oracle message thread_id hist inst uuidHex now).db =
      db ∧
    (match get_ticket_by_thread db thread_id with
     | some t =>
         (process_message db oracle message thread_id hist inst uuidHex
             now).result.status = "acknowledged" ∧
         (process_message db oracle message thread_id hist inst uuidHex
             now).result.ticket_id = some t.ticket_id
     | none =>
         (process_message db oracle message thread_id hist inst uuidHex
             now).result.status = "awaiting_complaint") := by
  cases hlk : get_ticket_by_thread db thread_id <;>
    simp [process_message, h, hlk]

/-- Witness for C4: empty history and message `"OK"` yield status
`"awaiting_complaint"` with zero oracle calls. -/
theorem c4_trivial_fast_path_witness :
    isTrivial "OK" = true ∧
    ((process_message [] (Except.error ()) "OK" "th1" [] sampleInstant
        sampleUuidHex 2).portCalls = 0 ∧
     (process_message [] (Except.error ()) "OK" "th1" [] sampleInstant
        sampleUuidHex 2).db = [] ∧
     (match get_ticket_by_thread [] "th1" with
      | some t =>
          (process_message [] (Except.error ()) "OK" "th1" [] sampleInstant
              sampleUuidHex 2).result.status = "acknowledged" ∧
          (process_message [] (Except.error ()) "OK" "th1" [] sampleInstant
              sampleUuidHex 2).result.ticket_id = some t.ticket_id
      | none =>
          (process_message [] (Except.error ()) "OK" "th1" [] sampleInstant
              sampleUuidHex 2).result.status = "awaiting_complaint")) :=
  ⟨by decide,
   c4_trivial_fast_path [] (Except.error ()) "OK" "th1" [] sampleInstant
     sampleUuidHex 2 (by decide)⟩

/-- C6 counterexample: with an existing OPEN ticket and 11 prior user turns,
a 12th message that is a trivial acknowledgment token (`"ok"`) is answered by
the trivial fast path, which runs first: the status is `"acknowledged"`, not
`"ticket_exists"`, so the claim does not hold for every next message. -/
theorem c6_threshold_counterexample :
    get_ticket_by_thread [sampleOpenTicket] "th1" = some sampleOpenTicket ∧
    sampleOpenTicket.status = some "OPEN" ∧
    userTurnCount elevenUserTurns > 10 ∧
    (process_message [sampleOpenTicket] (Except.error ()) "ok" "th1"
        elevenUserTurns sampleInstant sampleUuidHex 2).result.status =
      "acknowledged" ∧
    (process_message [sampleOpenTicket] (Except.error ()) "ok" "th1"
        elevenUserTurns sampleInstant sampleUuidHex 2).result.status ≠
      "ticket_exists" :=
  ⟨by decide, rfl, by decide, by decide, by decide⟩

/-- C6 (amended): provided the next message is not a trivial acknowledgment
token and does not duplicate the immediately preceding user turn, a
conversation with an existing OPEN ticket and more than 10 prior user turns
short-circuits to status `"ticket_exists"` carrying the ticket id, with zero
oracle calls and the table untouched (no Analyze/Execute runs). -/
theorem c6_threshold_gate (db : List Ticket)
    (oracle : Except Unit ActionResponse) (message thread_id : String)
    (hist : List HMsg) (inst : Instant) (uuidHex : List Char) (now : Nat)
    (t : Ticket)
    (h1 : isTrivial message = false)
    (h2 : isDuplicate hist message = false)
    (h3 : get_ticket_by_thread db thread_id = some t)
    (h4 : t.status = some "OPEN")
    (h5 : userTurnCount hist > 10) :
    process_message db oracle message thread_id hist inst uuidHex now =
      { result := { response := thresholdResponse t,
                    status := "ticket_exists",
                    ticket_id := some t.ticket_id },
        db := db, portCalls := 0 } := by
  simp [process_message, h1, h2, h3, overThreshold, h4, h5]

/-- Witness for the amended C6: the 12th message of a conversation with an
OPEN ticket and 11 prior user turns short-circuits. -/
theorem c6_threshold_gate_witness :
    (isTrivial "The airline has not responded yet" = false ∧
     isDuplicate elevenUserTurns "The airline has not responded yet" = false ∧
     get_ticket_by_thread [sampleOpenTicket] "th1" = some sampleOpenTicket ∧
     sampleOpenTicket.status = some "OPEN" ∧
     userTurnCount elevenUserTurns > 10) ∧
    process_message [sampleOpenTicket] (Except.error ())
        "The airline has not responded yet" "th1" elevenUserTurns
        sampleInstant sampleUuidHex 2 =
      { result := { response := thresholdResponse sampleOpenTicket,
                    status := "ticket_exists",
                    ticket_id := some sampleOpenTicket.ticket_id },
        db := [sampleOpenTicket], portCalls := 0 } :=
  ⟨⟨by decide, by decide, by decide, rfl, by decide⟩,
   c6_threshold_gate [sampleOpenTicket] (Except.error ())
     "The airline has not responded yet" "th1" elevenUserTurns sampleInstant
     sampleUuidHex 2 sampleOpenTicket (by decide) (by decide) (by decide) rfl
     (by decide)⟩
